import Mathlib

/-!
Verification of the dynamic social-card image route of the repository
(src/app/api/og/route.tsx), shallowly embedded in Lean 4.

Modelling conventions:
* A JavaScript string is a `List Char` (`title.length` is the number of
  UTF-16 units; for the characters involved here that coincides with the
  number of `Char`s); `title.substring(0, 140)` is `List.take 140`.
* The query parameter `searchParams.get "title"` is an
  `Option (List Char)`: `none` when absent, `some []` when `?title=`.
* The module-scoped promise `interBold` (route.tsx lines 7-9) is passed to
  the handler as its settled outcome, `Except Unit FontData`: `.error ()`
  when the asset fetch rejected (so `await interBold` throws), `.ok bytes`
  when it resolved.
* The possibility that the `ImageResponse` composition throws inside the
  `try` block is an explicit boolean input `composeOk`.
* The `try/catch` of the handler becomes the top-level `match`/branching of
  `GET`, which is a total function into `OgResponse`.
-/

namespace OgRoute

/-- Raw bytes of the fetched font `ArrayBuffer`. -/
abbrev FontData := List Nat

/-- The three-character ellipsis marker appended by route.tsx line 22. -/
def ellipsis : List Char := ['.', '.', '.']

/-- The heading transform of route.tsx line 22:
`title.length > 140 ? title.substring(0, 140) + "..." : title`. -/
def heading (title : List Char) : List Char :=
  if 140 < title.length then title.take 140 ++ ellipsis else title

/-- One `<path>` element of the inline SVG logo (route.tsx lines 39-65). -/
structure SvgPath where
  d : String
  strokeWidth : Nat
  strokeLinecap : String
  strokeLinejoin : String
  strokeMiterlimit : Nat
  fill : String
  stroke : String
  dataOriginal : String
deriving Repr, DecidableEq

/-- First logo path (route.tsx lines 39-51). -/
def logoPath1 : SvgPath :=
  { d := "M256.073 256.042 471.207 380.25M40.792 380.249l215.099-124.186M256 63.447V7.5M256 256.042V98.447M228.542 456.94 256 504.5l215.208-372.749-341.889-.001M94.319 131.75H40.793l170.304 294.976M327.808 380.25h143.399l-71.723-124.229M112.516 256.021 40.792 380.249h143.346M327.592 131.5 256 7.5l-71.592 124"
    strokeWidth := 15
    strokeLinecap := "round"
    strokeLinejoin := "round"
    strokeMiterlimit := 10
    fill := "none"
    stroke := "#2e78c9"
    dataOriginal := "#000000" }

/-- Second logo path (route.tsx lines 52-65). -/
def logoPath2 : SvgPath :=
  { d := "m318.25 239.427 45.569 78.823-215.639-.001L256 131.75l44.663 77.255"
    strokeWidth := 15
    strokeLinecap := "round"
    strokeLinejoin := "round"
    strokeMiterlimit := 10
    fill := "none"
    stroke := "#2e78c9"
    dataOriginal := "#000000" }

/-- `siteConfig.url` from the site configuration module. -/
def siteConfigUrl : String := "https://revi-blog.rev.earth"

/-- The element tree handed to `ImageResponse` (route.tsx lines 26-75),
keeping the attributes the layout contract talks about: the container
`tw` class string, the logo geometry and paths, the label, the heading
text and the footer URL. -/
structure OgLayout where
  containerTw : String
  logoWidth : Nat
  logoHeight : Nat
  logoPaths : List SvgPath
  label : String
  headingText : List Char
  footerUrl : String
deriving Repr, DecidableEq

/-- The layout built for a given (already transformed) heading. -/
def layoutFor (h : List Char) : OgLayout :=
  { containerTw := "flex relative flex-col p-12 w-full h-full items-start text-black bg-white"
    logoWidth := 50
    logoHeight := 50
    logoPaths := [logoPath1, logoPath2]
    label := "Revi&apos;s Blog"
    headingText := h
    footerUrl := siteConfigUrl }

/-- One entry of the `fonts` option of `ImageResponse` (route.tsx 79-86). -/
structure FontSpec where
  name : String
  data : FontData
  style : String
  weight : Nat
deriving Repr, DecidableEq

/-- The options object of `ImageResponse` (route.tsx lines 76-87). -/
structure ImageOptions where
  width : Nat
  height : Nat
  fonts : List FontSpec
deriving Repr, DecidableEq

/-- The options built from the awaited font bytes. -/
def imageOpts (fontBold : FontData) : ImageOptions :=
  { width := 800
    height := 400
    fonts := [{ name := "Inter", data := fontBold, style := "normal", weight := 700 }] }

/-- The handler result: a plain-text `Response` with a status, or an
`ImageResponse` (which carries the default status 200). -/
inductive OgResponse where
  | plain (body : String) (status : Nat)
  | image (layout : OgLayout) (opts : ImageOptions)
deriving Repr, DecidableEq

/-- JavaScript truthiness test `!title` for `title : string | null`:
true for `null` and for the empty string. -/
def jsFalsy : Option (List Char) → Bool
  | none => true
  | some s => s.isEmpty

/-- The `GET` handler of route.tsx lines 11-92, as a total function.
The source order is preserved: `await interBold` comes first (line 13,
its throw caught at line 89), then the title is read and validated
(lines 15-20), then the heading is computed (line 22) and the
`ImageResponse` is composed (lines 24-88, a throw caught at line 89). -/
def GET (interBold : Except Unit FontData) (titleParam : Option (List Char))
    (composeOk : Bool) : OgResponse :=
  match interBold with
  | .error _ => .plain "Failed to generate image" 500
  | .ok fontBold =>
    if jsFalsy titleParam then
      .plain "No title provided" 500
    else
      let title := titleParam.getD []
      if composeOk then
        .image (layoutFor (heading title)) (imageOpts fontBold)
      else
        .plain "Failed to generate image" 500

/-- Process-lifetime state: how many times the font asset has been
fetched, and the settled module-scoped promise `interBold`. -/
structure ModuleState where
  fetchCount : Nat
  interBold : Except Unit FontData
deriving Repr

/-- Module initialization (route.tsx lines 7-9): the single module-scoped
`fetch` is initiated, giving the promise every request will await. -/
def initModule (fetchOutcome : Except Unit FontData) : ModuleState :=
  { fetchCount := 1, interBold := fetchOutcome }

/-- One `GET` invocation: it awaits the module-scoped promise
`s.interBold` and contains no `fetch` call of its own, so the state is
returned unchanged. -/
def handleRequest (s : ModuleState) (titleParam : Option (List Char))
    (composeOk : Bool) : ModuleState × OgResponse :=
  (s, GET s.interBold titleParam composeOk)

/-- A sequence of requests against one process. -/
def runRequests (s : ModuleState) :
    List (Option (List Char) × Bool) → ModuleState × List OgResponse
  | [] => (s, [])
  | (t, c) :: rest =>
    let p := handleRequest s t c
    let q := runRequests p.1 rest
    (q.1, p.2 :: q.2)

theorem runRequests_fst (s : ModuleState)
    (reqs : List (Option (List Char) × Bool)) : (runRequests s reqs).1 = s := by
  induction reqs with
  | nil => rfl
  | cons r rest ih => cases r; simpa [runRequests, handleRequest] using ih

theorem runRequests_snd (s : ModuleState)
    (reqs : List (Option (List Char) × Bool)) :
    (runRequests s reqs).2 = reqs.map (fun r => GET s.interBold r.1 r.2) := by
  induction reqs with
  | nil => rfl
  | cons r rest ih => cases r; simpa [runRequests, handleRequest] using ih

end OgRoute

namespace OgRoute

/-- C1: for every non-empty title of length at most 140, the rendered
heading equals the title unchanged; for every title of length greater
than 140, it equals the first 140 characters followed by "...". -/
theorem heading_correct (t : List Char) (_hne : t ≠ []) :
    (t.length ≤ 140 → heading t = t) ∧
    (140 < t.length → heading t = t.take 140 ++ ellipsis) := by
  constructor
  · intro h
    rw [heading, if_neg (by omega)]
  · intro h
    rw [heading, if_pos h]

/-- Witness for C1: both branches at concrete titles. -/
theorem heading_correct_witness :
    heading ['a'] = ['a'] ∧
    heading (List.replicate 150 'a') =
      (List.replicate 150 'a').take 140 ++ ellipsis :=
  ⟨(heading_correct ['a'] (by decide)).1 (by decide),
   (heading_correct (List.replicate 150 'a') (by simp)).2 (by simp)⟩

/-- C7: for every title, the heading fed into the rendering layer has at
most 143 characters; when the title has at most 140 characters it is
passed through unchanged. -/
theorem heading_length_bound (t : List Char) :
    (heading t).length ≤ 143 ∧ (t.length ≤ 140 → heading t = t) := by
  by_cases h : 140 < t.length
  · rw [heading, if_pos h]
    refine ⟨?_, fun h2 => by omega⟩
    simp [ellipsis]
  · rw [heading, if_neg h]
    exact ⟨by omega, fun _ => rfl⟩

/-- Witness for C7 at a concrete short and a concrete long title. -/
theorem heading_length_bound_witness :
    (heading (List.replicate 200 'b')).length ≤ 143 ∧
    heading ['b'] = ['b'] :=
  ⟨(heading_length_bound (List.replicate 200 'b')).1,
   (heading_length_bound ['b']).2 (by decide)⟩

/-- C9: the heading truncation transform is idempotent. -/
theorem heading_idempotent (t : List Char) :
    heading (heading t) = heading t := by
  by_cases h : 140 < t.length
  · have ht : heading t = t.take 140 ++ ellipsis := by rw [heading, if_pos h]
    have h140 : (t.take 140).length = 140 := by simp; omega
    rw [ht, heading, if_pos (by simp [ellipsis]; omega)]
    congr 1
    rw [List.take_append_eq_append_take, h140]
    simp [List.take_take]
  · have ht : heading t = t := by rw [heading, if_neg h]
    rw [ht, heading, if_neg h]

/-- C10: for every title longer than 140 characters the heading has
exactly 143 characters; in particular for titles of length 141 or 142
the heading is strictly longer than the original title. -/
theorem heading_length_after_truncation (t : List Char) :
    (140 < t.length → (heading t).length = 143) ∧
    (t.length = 141 ∨ t.length = 142 →
      (heading t).length = 143 ∧ t.length < (heading t).length) := by
  have key : 140 < t.length → (heading t).length = 143 := by
    intro h
    rw [heading, if_pos h]
    simp [ellipsis]
    omega
  refine ⟨key, fun h => ?_⟩
  have h141 : 140 < t.length := by omega
  exact ⟨key h141, by rw [key h141]; omega⟩

/-- Witness for C10 at a title of exactly 141 characters. -/
theorem heading_length_after_truncation_witness :
    (heading (List.replicate 141 'c')).length = 143 ∧
    (List.replicate 141 'c').length < (heading (List.replicate 141 'c')).length :=
  (heading_length_after_truncation (List.replicate 141 'c')).2 (by simp)

/-- C2 (amended): when the module-scoped font promise resolved
successfully, every request whose title parameter is absent or empty is
answered with status 500 and body exactly "No title provided"; the
response is a plain-text response, so no image is generated. -/
theorem missing_title_response (fb : FontData) (t : Option (List Char))
    (c : Bool) (h : jsFalsy t = true) :
    GET (.ok fb) t c = .plain "No title provided" 500 := by
  simp [GET, h]

/-- Witness for C2 at the absent-title request. -/
theorem missing_title_response_witness :
    GET (.ok []) none true = .plain "No title provided" 500 :=
  missing_title_response [] none true rfl

/-- C2 counterexample: in a process whose font asset fetch rejected, the
request with absent title is answered "Failed to generate image" rather
than "No title provided", because the handler awaits the font promise
before validating the title. -/
theorem missing_title_font_failure :
    GET (.error ()) none true = .plain "Failed to generate image" 500 ∧
    GET (.error ()) none true ≠ .plain "No title provided" 500 :=
  ⟨rfl, by decide⟩

/-- C3 (amended): when the font retrieval succeeded, a request with
absent or empty title receives the distinct missing-input message, and
the response does not depend on the composition outcome (no attempt to
render is made). -/
theorem missing_title_independent_of_compose (fb : FontData)
    (t : Option (List Char)) (h : jsFalsy t = true) (c c' : Bool) :
    GET (.ok fb) t c = .plain "No title provided" 500 ∧
    GET (.ok fb) t c = GET (.ok fb) t c' := by
  simp [GET, h]

/-- Witness for C3 at the empty-title request, comparing both
composition outcomes. -/
theorem missing_title_independent_of_compose_witness :
    GET (.ok []) (some []) true = .plain "No title provided" 500 ∧
    GET (.ok []) (some []) true = GET (.ok []) (some []) false :=
  missing_title_independent_of_compose [] (some []) rfl true false

/-- C3 counterexample: the missing-input response does depend on the
outcome of the font retrieval: for the same absent-title request, a
rejected font fetch changes the response. -/
theorem missing_title_depends_on_font :
    GET (.error ()) none true ≠ GET (.ok []) none true ∧
    GET (.ok []) none true = .plain "No title provided" 500 :=
  ⟨by decide, rfl⟩

/-- C4: the handler is a total function and every request yields one of
exactly three outcomes: the missing-title response, the generic failure
response, or a success image response. -/
theorem GET_three_outcomes (f : Except Unit FontData)
    (t : Option (List Char)) (c : Bool) :
    GET f t c = .plain "No title provided" 500 ∨
    GET f t c = .plain "Failed to generate image" 500 ∨
    ∃ lay opts, GET f t c = .image lay opts := by
  cases f with
  | error e => exact Or.inr (Or.inl rfl)
  | ok fb =>
    cases ht : jsFalsy t with
    | true => exact Or.inl (by simp [GET, ht])
    | false =>
      cases c with
      | true =>
        exact Or.inr (Or.inr ⟨layoutFor (heading (t.getD [])),
          imageOpts fb, by simp [GET, ht]⟩)
      | false => exact Or.inr (Or.inl (by simp [GET, ht]))

/-- C5: the font fetch happens exactly once, at module initialization,
and every request of the process awaits that same settled promise: after
any sequence of requests the fetch count is still 1 and each response is
the handler applied to the single module-scoped fetch outcome. -/
theorem font_fetched_once (o : Except Unit FontData)
    (reqs : List (Option (List Char) × Bool)) :
    (runRequests (initModule o) reqs).1.fetchCount = 1 ∧
    (runRequests (initModule o) reqs).2 =
      reqs.map (fun r => GET o r.1 r.2) := by
  refine ⟨?_, ?_⟩
  · rw [runRequests_fst]
    rfl
  · rw [runRequests_snd]
    rfl

/-- C6: every successfully generated image response has width 800 and
height 400, regardless of the title. -/
theorem image_dimensions (f : Except Unit FontData) (t : Option (List Char))
    (c : Bool) (lay : OgLayout) (opts : ImageOptions)
    (h : GET f t c = .image lay opts) :
    opts.width = 800 ∧ opts.height = 400 := by
  cases f with
  | error e => simp [GET] at h
  | ok fb =>
    cases ht : jsFalsy t with
    | true => simp [GET, ht] at h
    | false =>
      cases c with
      | true =>
        simp [GET, ht] at h
        rw [← h.2]
        exact ⟨rfl, rfl⟩
      | false => simp [GET, ht] at h

/-- Witness for C6 at a concrete successful request. -/
theorem image_dimensions_witness :
    (imageOpts []).width = 800 ∧ (imageOpts []).height = 400 :=
  image_dimensions (.ok []) (some ['a']) true
    (layoutFor (heading ['a'])) (imageOpts []) rfl

theorem layoutFor_containerTw (h : List Char) :
    (layoutFor h).containerTw =
      "flex relative flex-col p-12 w-full h-full items-start text-black bg-white" :=
  rfl

/-- C8 (amended): in the rendered layout of every successfully generated
image, the container class list includes the white background and black
text classes, but the stroke color of both logo paths is "#2e78c9" (a
blue), not black. -/
theorem layout_colors (f : Except Unit FontData) (t : Option (List Char))
    (c : Bool) (lay : OgLayout) (opts : ImageOptions)
    (h : GET f t c = .image lay opts) :
    (lay.containerTw.toList.splitOn ' ').contains "bg-white".toList = true ∧
    (lay.containerTw.toList.splitOn ' ').contains "text-black".toList = true ∧
    lay.logoPaths.map (fun p => p.stroke) = ["#2e78c9", "#2e78c9"] := by
  cases f with
  | error e => simp [GET] at h
  | ok fb =>
    cases ht : jsFalsy t with
    | true => simp [GET, ht] at h
    | false =>
      cases c with
      | true =>
        simp [GET, ht] at h
        rw [← h.1]
        exact ⟨by rw [layoutFor_containerTw]; decide,
          by rw [layoutFor_containerTw]; decide, rfl⟩
      | false => simp [GET, ht] at h

/-- Witness for C8 (amended) at a concrete successful request. -/
theorem layout_colors_witness :
    ((layoutFor (heading ['a'])).containerTw.toList.splitOn ' ').contains
      "bg-white".toList = true ∧
    ((layoutFor (heading ['a'])).containerTw.toList.splitOn ' ').contains
      "text-black".toList = true ∧
    (layoutFor (heading ['a'])).logoPaths.map (fun p => p.stroke)
      = ["#2e78c9", "#2e78c9"] :=
  layout_colors (.ok []) (some ['a']) true
    (layoutFor (heading ['a'])) (imageOpts []) rfl

/-- C8 counterexample: at the concrete successful request with title
"H", both logo paths carry stroke "#2e78c9", which is not black. -/
theorem logo_stroke_not_black :
    GET (.ok []) (some ['H']) true =
      .image (layoutFor (heading ['H'])) (imageOpts []) ∧
    (layoutFor (heading ['H'])).logoPaths.map (fun p => p.stroke)
      = ["#2e78c9", "#2e78c9"] ∧
    ("#2e78c9" : String) ≠ "black" :=
  ⟨rfl, rfl, by decide⟩

end OgRoute
